import Mathlib

/-!
Verification of the CYD_terminal terminal-emulation core.

This file gives a shallow embedding of the terminal implementation
(`terminal.cpp`, `utf8.cpp`, the keyboard/history module and `config.h`)
and proves properties of it.

Modelling conventions:
* C `int` variables are modelled as `Int`; all `%` and `/` operations in the
  source act on non-negative operands in the states we consider, so they are
  rendered with `Int.emod` / `Int.ediv`, which agree with C's truncating
  `%` / `/` on non-negative operands.
* `uint8_t` / `uint32_t` arithmetic that could overflow is reduced modulo
  `2 ^ 8` / `2 ^ 32` at the operation that could overflow.
* The screen buffer `uint32_t screenBuffer[100][53]` is modelled as a total
  function `Int → Int → Nat`; the C program only ever indexes it inside
  `[0,100) × [0,53)` (this in-bounds property is itself proved below).
* Calls whose only effect is drawing pixels (`tft.*`, `drawUnicodeChar`,
  `drawScrollbar`, `terminalRedraw`'s painting) have no state effect and are
  dropped; `ensureCursorVisible` and `terminalRedraw`'s visible-range
  computation do affect or describe state and are modelled faithfully.
-/

/-! ## Constants from config.h -/

def TERMINAL_COLS : Int := 53
def TERMINAL_ROWS : Int := 27
def TERMINAL_BUFFER_ROWS : Int := 100
def SCREEN_HEIGHT : Int := 240
def TERMINAL_START_Y : Int := 22
def KEYBOARD_Y_POS : Int := 80

/-- RGB565 color constants from TFT_eSPI used by the terminal. -/
def TFT_BLACK : Nat := 0x0000
def TFT_RED : Nat := 0xF800
def TFT_GREEN : Nat := 0x07E0
def TFT_YELLOW : Nat := 0xFFE0
def TFT_BLUE : Nat := 0x001F
def TFT_MAGENTA : Nat := 0xF81F
def TFT_CYAN : Nat := 0x07FF
def TFT_WHITE : Nat := 0xFFFF

/-- Arduino's `constrain(amt, low, high)` macro. -/
def constrain (x lo hi : Int) : Int :=
  if x < lo then lo else if x > hi then hi else x

/-! ## UTF-8 decoder (utf8.cpp) -/

/-- Decoder state struct from utf8.h. -/
structure UTF8Decoder where
  state : Nat
  codepoint : Nat
  bytesNeeded : Nat
  bytesReceived : Nat
deriving DecidableEq

/-- `utf8Init`: the reset decoder state. -/
def utf8Init : UTF8Decoder :=
  { state := 0, codepoint := 0, bytesNeeded := 0, bytesReceived := 0 }

/-- `utf8GetCodepoint`. -/
def utf8GetCodepoint (d : UTF8Decoder) : Nat := d.codepoint

/-- `utf8Decode(decoder, byte)` from utf8.cpp: returns the updated decoder and
whether a complete scalar value is available.  `bytesReceived` is a `uint8_t`
and `codepoint` a `uint32_t` in C, hence the explicit reductions. -/
def utf8Decode (d : UTF8Decoder) (b : Nat) : UTF8Decoder × Bool :=
  if d.bytesNeeded = 0 then
    if b &&& 0x80 = 0 then
      ({ d with codepoint := b }, true)
    else if b &&& 0xE0 = 0xC0 then
      ({ d with codepoint := b &&& 0x1F, bytesNeeded := 1, bytesReceived := 0 }, false)
    else if b &&& 0xF0 = 0xE0 then
      ({ d with codepoint := b &&& 0x0F, bytesNeeded := 2, bytesReceived := 0 }, false)
    else if b &&& 0xF8 = 0xF0 then
      ({ d with codepoint := b &&& 0x07, bytesNeeded := 3, bytesReceived := 0 }, false)
    else
      (utf8Init, false)
  else
    if b &&& 0xC0 = 0x80 then
      let cp := ((d.codepoint <<< 6) ||| (b &&& 0x3F)) % 2 ^ 32
      let recv := (d.bytesReceived + 1) % 2 ^ 8
      if recv ≥ d.bytesNeeded then
        ({ d with codepoint := cp, bytesReceived := recv, bytesNeeded := 0 }, true)
      else
        ({ d with codepoint := cp, bytesReceived := recv }, false)
    else
      (utf8Init, false)

/-- The byte-at-a-time decoding loop shared by `terminalUpdate`,
`terminalSendText` and `terminalLocalEchoText`: each completed scalar value is
emitted and the decoder is re-initialized (`utf8Init`) for the next one. -/
def decodeStream (d : UTF8Decoder) : List Nat → List Nat
  | [] => []
  | b :: bs =>
    let r := utf8Decode d b
    if r.2 then utf8GetCodepoint r.1 :: decodeStream utf8Init bs
    else decodeStream r.1 bs

/-! ## Terminal state (terminal.cpp globals) -/

structure TermState where
  screenBuffer : Int → Int → Nat
  cursorX : Int
  cursorY : Int
  scrollOffset : Int
  totalLines : Int
  fgColor : Nat
  bgColor : Nat
  keyboardVisible : Bool

/-- Blank-fill one buffer row: `for (x = 0; x < TERMINAL_COLS; x++) buf[y][x] = ' '`. -/
def clearRow (b : Int → Int → Nat) (y : Int) : Int → Int → Nat :=
  fun r c => if r = y ∧ 0 ≤ c ∧ c < TERMINAL_COLS then 32 else b r c

/-- Single cell write `screenBuffer[y][x] = cp`. -/
def writeCell (b : Int → Int → Nat) (y x : Int) (cp : Nat) : Int → Int → Nat :=
  fun r c => if r = y ∧ c = x then cp else b r c

/-- Blank-fill the whole buffer (the loop in `terminalInit` / `terminalClear`). -/
def clearAllRows (b : Int → Int → Nat) : Int → Int → Nat :=
  fun r c =>
    if 0 ≤ r ∧ r < TERMINAL_BUFFER_ROWS ∧ 0 ≤ c ∧ c < TERMINAL_COLS then 32 else b r c

/-- State established by `terminalInit` (UART setup dropped): cleared buffer,
cursor at origin, zero scroll and line counters, default colors; the keyboard
overlay starts hidden (`keyboardVisible = false` in the main sketch). -/
def terminalInitState : TermState :=
  { screenBuffer := fun _ _ => 32
    cursorX := 0
    cursorY := 0
    scrollOffset := 0
    totalLines := 0
    fgColor := TFT_GREEN
    bgColor := TFT_BLACK
    keyboardVisible := false }

/-- The visible row count computed at the top of `terminalRedraw`:
`maxY` depends on the keyboard overlay, rows are 8 px, capped at
`TERMINAL_ROWS`, and further capped at 5 when the keyboard is visible. -/
def visibleRowsOf (kb : Bool) : Int :=
  let maxY := if kb then KEYBOARD_Y_POS else SCREEN_HEIGHT
  let v0 := Int.ediv (maxY - TERMINAL_START_Y) 8
  let v1 := if v0 > TERMINAL_ROWS then TERMINAL_ROWS else v0
  if kb ∧ v1 > 5 then 5 else v1

/-- `firstLineToShow` from `terminalRedraw` (lines 96–98). -/
def firstLineToShow (s : TermState) (visibleRows : Int) : Int :=
  let f := s.totalLines - visibleRows - s.scrollOffset
  if f < 0 then 0 else f

/-- The first line shown by a redraw in state `s`, using the viewport
height `terminalRedraw` itself would use. -/
def computeVisibleFirst (s : TermState) : Int :=
  firstLineToShow s (visibleRowsOf s.keyboardVisible)

/-- One iteration bundle of `terminalRedraw`'s drawing loop (lines 101–125):
produces the `(lineNumber, bufferLine)` pairs actually drawn, honouring the
`break` on `lineNumber >= totalLines` and the `continue` on overwritten
lines. `n` counts the remaining iterations, `y` is the loop index. -/
def drawnLinesGo (s : TermState) (first : Int) : Nat → Int → List (Int × Int)
  | 0, _ => []
  | Nat.succ n, y =>
    let lineNumber := first + y
    if lineNumber ≥ s.totalLines then []
    else if s.totalLines ≤ TERMINAL_BUFFER_ROWS then
      (lineNumber, lineNumber) :: drawnLinesGo s first n (y + 1)
    else if lineNumber < s.totalLines - TERMINAL_BUFFER_ROWS then
      drawnLinesGo s first n (y + 1)
    else
      (lineNumber, Int.emod lineNumber TERMINAL_BUFFER_ROWS) ::
        drawnLinesGo s first n (y + 1)

/-- All `(lineNumber, bufferLine)` pairs drawn by `terminalRedraw` in state `s`. -/
def drawnLines (s : TermState) : List (Int × Int) :=
  let v := visibleRowsOf s.keyboardVisible
  drawnLinesGo s (firstLineToShow s v) v.toNat 0

/-- The cursor's absolute line number as computed in `terminalRedraw`
(lines 190–198), `ensureCursorVisible` and `terminalScrollForKeyboard`. -/
def cursorAbsLine (s : TermState) : Int :=
  if s.totalLines ≤ TERMINAL_BUFFER_ROWS then s.cursorY
  else
    let newestLinePos := Int.emod (s.totalLines - 1) TERMINAL_BUFFER_ROWS
    let offset := Int.emod (newestLinePos - s.cursorY + TERMINAL_BUFFER_ROWS) TERMINAL_BUFFER_ROWS
    s.totalLines - 1 - offset

/-- `ensureCursorVisible` (terminal.cpp lines 225–278).  With the keyboard
hidden it resets `scrollOffset` to 0; with it visible it recomputes
`scrollOffset` so the cursor lands on the target row.  Redraws are display
only. -/
def ensureCursorVisible (s : TermState) : TermState :=
  if ¬ s.keyboardVisible then
    { s with scrollOffset := 0 }
  else
    let v0 := Int.ediv (KEYBOARD_Y_POS - TERMINAL_START_Y) 8
    let v := if v0 > 5 then 5 else v0
    let targetFirst0 := cursorAbsLine s - v
    let targetFirst := if targetFirst0 < 0 then 0 else targetFirst0
    let so0 := s.totalLines - v - targetFirst
    let so1 := if so0 < 0 then 0 else so0
    let maxScroll0 := s.totalLines - v
    let maxScroll := if maxScroll0 < 0 then 0 else maxScroll0
    { s with scrollOffset := if so1 > maxScroll then maxScroll else so1 }

/-- `scrollUp` (terminal.cpp lines 280–295): clear the slot about to be
reused, move the cursor there, bump `totalLines`. -/
def scrollUp (s : TermState) : TermState :=
  let nextLine := Int.emod s.totalLines TERMINAL_BUFFER_ROWS
  { s with
    screenBuffer := clearRow s.screenBuffer nextLine
    cursorY := nextLine
    totalLines := s.totalLines + 1 }

/-- The line-advance block shared verbatim by `putChar`'s `'\n'` branch
(lines 301–342) and its column-wrap branch (lines 427–459); the caller has
already set `cursorX` to 0. -/
def lineFeed (s : TermState) : TermState :=
  let s1 := { s with cursorY := s.cursorY + 1 }
  let s2 :=
    if s1.cursorY < TERMINAL_BUFFER_ROWS then
      { s1 with screenBuffer := clearRow s1.screenBuffer s1.cursorY }
    else s1
  let s3 :=
    if s2.totalLines < TERMINAL_BUFFER_ROWS ∧ s2.totalLines ≤ s2.cursorY then
      { s2 with totalLines := s2.cursorY + 1 }
    else s2
  if s3.cursorY ≥ TERMINAL_BUFFER_ROWS then
    ensureCursorVisible (scrollUp { s3 with cursorY := TERMINAL_BUFFER_ROWS - 1 })
  else
    ensureCursorVisible s3

/-- `putChar(codepoint)` (terminal.cpp lines 297–462), with the pure display
calls dropped. -/
def putChar (s : TermState) (cp : Nat) : TermState :=
  if cp = 13 then
    { s with cursorX := 0 }
  else if cp = 10 then
    lineFeed { s with cursorX := 0 }
  else if cp = 8 then
    if 0 < s.cursorX then
      { s with
        cursorX := s.cursorX - 1
        screenBuffer := writeCell s.screenBuffer s.cursorY (s.cursorX - 1) 32 }
    else s
  else if 32 ≤ cp then
    let s1 :=
      { s with
        screenBuffer := writeCell s.screenBuffer s.cursorY s.cursorX cp
        cursorX := s.cursorX + 1 }
    if s1.cursorX ≥ TERMINAL_COLS then lineFeed { s1 with cursorX := 0 } else s1
  else s

/-- Feeding a whole list of codepoints through `putChar`. -/
def putChars (s : TermState) (cps : List Nat) : TermState :=
  cps.foldl putChar s

/-- `terminalScroll(delta)` (terminal.cpp lines 761–772). -/
def terminalScroll (s : TermState) (delta : Int) : TermState :=
  let so0 := s.scrollOffset + delta
  let maxScroll0 := s.totalLines - TERMINAL_ROWS
  let maxScroll := if maxScroll0 < 0 then 0 else maxScroll0
  let so1 := if so0 < 0 then 0 else so0
  { s with scrollOffset := if so1 > maxScroll then maxScroll else so1 }

/-- `terminalClear` (terminal.cpp lines 703–718). -/
def terminalClear (s : TermState) : TermState :=
  { s with
    screenBuffer := clearAllRows s.screenBuffer
    cursorX := 0
    cursorY := 0
    scrollOffset := 0
    totalLines := 0 }

/-- `terminalScrollForKeyboard(keyboardVisible)` (terminal.cpp lines 792–835). -/
def terminalScrollForKeyboard (s : TermState) (kb : Bool) : TermState :=
  if kb then
    let v := Int.ediv (KEYBOARD_Y_POS - TERMINAL_START_Y) 8
    let targetFirst0 := cursorAbsLine s - 2
    let targetFirst := if targetFirst0 < 0 then 0 else targetFirst0
    let so0 := s.totalLines - v - targetFirst
    let so1 := if so0 < 0 then 0 else so0
    let maxScroll0 := s.totalLines - v
    let maxScroll := if maxScroll0 < 0 then 0 else maxScroll0
    { s with scrollOffset := if so1 > maxScroll then maxScroll else so1 }
  else
    { s with scrollOffset := 0 }

/-- `toggleKeyboard` from the main sketch: flip the flag, then let
`terminalScrollForKeyboard` adjust the scroll position. -/
def toggleKeyboard (s : TermState) : TermState :=
  let s1 := { s with keyboardVisible := ¬ s.keyboardVisible }
  terminalScrollForKeyboard s1 s1.keyboardVisible

/-! ## Escape sequence interpreter (processEscSequence / terminalUpdate) -/

/-- Accumulator for the parameter-extraction loop of `processEscSequence`
(terminal.cpp lines 471–491). -/
structure ParamAcc where
  params : List Nat
  num : Nat
  hasNum : Bool

/-- One step of the parameter-extraction loop: digits accumulate into `num`,
`';'` pushes a completed number (capacity 4), any other byte is ignored. -/
def paramStep (st : ParamAcc) (b : Nat) : ParamAcc :=
  if 48 ≤ b ∧ b ≤ 57 then
    { st with num := st.num * 10 + (b - 48), hasNum := true }
  else if b = 59 then
    if st.hasNum ∧ st.params.length < 4 then
      { params := st.params ++ [st.num], num := 0, hasNum := false }
    else
      { st with num := 0, hasNum := false }
  else st

/-- The full parameter extraction over the bytes strictly between `'['` and
the command letter, including the trailing push. -/
def parseParams (mid : List Nat) : List Nat :=
  let fin := mid.foldl paramStep { params := [], num := 0, hasNum := false }
  if fin.hasNum ∧ fin.params.length < 4 then fin.params ++ [fin.num] else fin.params

/-- Reading `params[i]`: the C array is zero-initialized, so positions beyond
`paramCount` read as 0. -/
def getParam (ps : List Nat) (i : Nat) : Nat := ps.getD i 0

/-- The color `switch` in the `'m'` command (terminal.cpp lines 526–535). -/
def ansiColor (p : Nat) (old : Nat) : Nat :=
  if p = 30 then TFT_BLACK
  else if p = 31 then TFT_RED
  else if p = 32 then TFT_GREEN
  else if p = 33 then TFT_YELLOW
  else if p = 34 then TFT_BLUE
  else if p = 35 then TFT_MAGENTA
  else if p = 36 then TFT_CYAN
  else if p = 37 then TFT_WHITE
  else old

/-- The command `switch` of `processEscSequence` (terminal.cpp lines 494–564). -/
def applyEscCmd (s : TermState) (cmd : Nat) (ps : List Nat) : TermState :=
  if cmd = 72 ∨ cmd = 102 then
    let row : Int := if ps.length > 0 ∧ getParam ps 0 > 0 then (getParam ps 0 : Int) - 1 else 0
    let col : Int := if ps.length > 1 ∧ getParam ps 1 > 0 then (getParam ps 1 : Int) - 1 else 0
    { s with
      cursorX := constrain col 0 (TERMINAL_COLS - 1)
      cursorY := constrain row 0 (TERMINAL_ROWS - 1) }
  else if cmd = 74 then
    if getParam ps 0 = 2 then terminalClear s else s
  else if cmd = 75 then
    { s with
      screenBuffer := fun r c =>
        if r = s.cursorY ∧ s.cursorX ≤ c ∧ c < TERMINAL_COLS then 32 else s.screenBuffer r c }
  else if cmd = 109 then
    if ps.length = 0 ∨ getParam ps 0 = 0 then
      { s with fgColor := TFT_GREEN, bgColor := TFT_BLACK }
    else
      { s with fgColor := ps.foldl (fun f p => if 30 ≤ p ∧ p ≤ 37 then ansiColor p f else f) s.fgColor }
  else if cmd = 65 then
    let p : Int := if getParam ps 0 = 0 then 1 else getParam ps 0
    let y := s.cursorY - p
    { s with cursorY := if y < 0 then 0 else y }
  else if cmd = 66 then
    let p : Int := if getParam ps 0 = 0 then 1 else getParam ps 0
    let y := s.cursorY + p
    { s with cursorY := if y ≥ TERMINAL_ROWS then TERMINAL_ROWS - 1 else y }
  else if cmd = 67 then
    let p : Int := if getParam ps 0 = 0 then 1 else getParam ps 0
    let x := s.cursorX + p
    { s with cursorX := if x ≥ TERMINAL_COLS then TERMINAL_COLS - 1 else x }
  else if cmd = 68 then
    let p : Int := if getParam ps 0 = 0 then 1 else getParam ps 0
    let x := s.cursorX - p
    { s with cursorX := if x < 0 then 0 else x }
  else s

/-- `processEscSequence` (terminal.cpp lines 464–570) applied to the collected
sequence bytes `bs` (everything after the ESC byte, terminator included).
Sequences shorter than 2 bytes or not starting with `'['` have no effect. -/
def processEscSequence (s : TermState) (bs : List Nat) : TermState :=
  if bs.length ≥ 2 ∧ bs.headD 0 = 91 then
    applyEscCmd s ((bs.getLast?).getD 0) (parseParams ((bs.drop 1).dropLast))
  else s

/-- Combined interpreter state for `terminalUpdate`: terminal state, ESC
collection buffer (`escBuffer` up to index `escIndex`), `inEscSequence` flag
and the UTF-8 decoder. -/
structure IntrState where
  term : TermState
  escBuf : List Nat
  inEsc : Bool
  dec : UTF8Decoder

/-- One received byte, as handled by `terminalUpdate` (terminal.cpp lines
578–611): ESC-sequence collection (31-byte cap, letters terminate), ESC
starts a sequence, everything else goes through the UTF-8 decoder into
`putChar`. -/
def feedByte (st : IntrState) (b : Nat) : IntrState :=
  if st.inEsc then
    if st.escBuf.length < 31 then
      let eb := st.escBuf ++ [b]
      if (65 ≤ b ∧ b ≤ 90) ∨ (97 ≤ b ∧ b ≤ 122) then
        { st with term := processEscSequence st.term eb, escBuf := [], inEsc := false }
      else
        { st with escBuf := eb }
    else
      { st with escBuf := [], inEsc := false }
  else if b = 27 then
    { st with escBuf := [], inEsc := true }
  else
    let r := utf8Decode st.dec b
    if r.2 then
      { st with term := putChar st.term (utf8GetCodepoint r.1), dec := utf8Init }
    else
      { st with dec := r.1 }

/-- Feeding a byte list through `terminalUpdate` one byte at a time. -/
def feedBytes (st : IntrState) (bs : List Nat) : IntrState :=
  bs.foldl feedByte st

/-- Interpreter state right after `terminalInit`. -/
def intrInitState : IntrState :=
  { term := terminalInitState, escBuf := [], inEsc := false, dec := utf8Init }

/-! ## Command history (keyboard.cpp) -/

/-- History / input-line state from keyboard.cpp: the 10-slot
`commandHistory` array (index 0 most recent), `historyCount`, the
accumulated `inputBuffer`, `currentHistoryIndex` (−1 = not browsing) and
`savedNewCommand`. -/
structure HistState where
  history : List String
  historyCount : Int
  inputBuffer : String
  currentHistoryIndex : Int
  savedNewCommand : String
deriving DecidableEq

/-- Initial keyboard/history state. -/
def histInitState : HistState :=
  { history := List.replicate 10 ""
    historyCount := 0
    inputBuffer := ""
    currentHistoryIndex := -1
    savedNewCommand := "" }

/-- `saveCommandToHistory` (keyboard.cpp lines 80–94): shift the 10 slots
down, put the new command at index 0, saturate the count at 10. -/
def saveCommandToHistory (h : HistState) (cmd : String) : HistState :=
  if cmd.data.length = 0 then h
  else
    { h with
      history := cmd :: h.history.take 9
      historyCount := if h.historyCount < 10 then h.historyCount + 1 else h.historyCount }

/-- `loadCommandToBuffer` (keyboard.cpp lines 121–133) restricted to state:
copy the command into `inputBuffer`, truncated to `INPUT_BUFFER_SIZE - 1`
= 255 characters (the backspace/echo calls only repaint the display). -/
def loadCommandToBuffer (h : HistState) (cmd : String) : HistState :=
  { h with inputBuffer := String.mk (cmd.data.take 255) }

/-- `historyUp` (keyboard.cpp lines 136–152). -/
def historyUp (h : HistState) : HistState :=
  if h.historyCount = 0 then h
  else if h.currentHistoryIndex = -1 then
    loadCommandToBuffer
      { h with savedNewCommand := h.inputBuffer, currentHistoryIndex := 0 }
      (h.history.getD 0 "")
  else if h.currentHistoryIndex < h.historyCount - 1 then
    loadCommandToBuffer
      { h with currentHistoryIndex := h.currentHistoryIndex + 1 }
      (h.history.getD (h.currentHistoryIndex + 1).toNat "")
  else h

/-- `historyDown` (keyboard.cpp lines 155–168). -/
def historyDown (h : HistState) : HistState :=
  if h.currentHistoryIndex = -1 then h
  else
    let i := h.currentHistoryIndex - 1
    if i = -1 then
      { loadCommandToBuffer { h with currentHistoryIndex := i } h.savedNewCommand with
        savedNewCommand := "" }
    else
      loadCommandToBuffer { h with currentHistoryIndex := i }
        (h.history.getD i.toNat "")

/-! ## Operation alphabet for the safety invariant -/

/-- The state-mutating terminal operations named by the safety claim. -/
inductive TermOp where
  | put (cp : Nat)
  | esc (bs : List Nat)
  | scrUp
  | scroll (d : Int)
  | clear

/-- Interpretation of one operation. -/
def stepOp (s : TermState) : TermOp → TermState
  | TermOp.put cp => putChar s cp
  | TermOp.esc bs => processEscSequence s bs
  | TermOp.scrUp => scrollUp s
  | TermOp.scroll d => terminalScroll s d
  | TermOp.clear => terminalClear s

/-- Running a sequence of operations. -/
def runOps (s : TermState) (ops : List TermOp) : TermState :=
  ops.foldl stepOp s

/-- The cursor/counter well-formedness invariant: the cursor addresses a cell
of the `100 × 53` screen buffer and the line counter is non-negative. -/
def TermInv (s : TermState) : Prop :=
  0 ≤ s.cursorX ∧ s.cursorX < TERMINAL_COLS ∧
    0 ≤ s.cursorY ∧ s.cursorY < TERMINAL_BUFFER_ROWS ∧ 0 ≤ s.totalLines

/-! ## Projection helper lemmas -/

theorem ensureCursorVisible_screenBuffer (s : TermState) :
    (ensureCursorVisible s).screenBuffer = s.screenBuffer := by
  unfold ensureCursorVisible; split <;> rfl

theorem ensureCursorVisible_cursorX (s : TermState) :
    (ensureCursorVisible s).cursorX = s.cursorX := by
  unfold ensureCursorVisible; split <;> rfl

theorem ensureCursorVisible_cursorY (s : TermState) :
    (ensureCursorVisible s).cursorY = s.cursorY := by
  unfold ensureCursorVisible; split <;> rfl

theorem ensureCursorVisible_totalLines (s : TermState) :
    (ensureCursorVisible s).totalLines = s.totalLines := by
  unfold ensureCursorVisible; split <;> rfl

theorem ensureCursorVisible_keyboardVisible (s : TermState) :
    (ensureCursorVisible s).keyboardVisible = s.keyboardVisible := by
  unfold ensureCursorVisible; split <;> rfl

theorem scrollUp_cursorY (s : TermState) :
    (scrollUp s).cursorY = Int.emod s.totalLines TERMINAL_BUFFER_ROWS := rfl

theorem scrollUp_cursorX (s : TermState) : (scrollUp s).cursorX = s.cursorX := rfl

theorem scrollUp_totalLines (s : TermState) :
    (scrollUp s).totalLines = s.totalLines + 1 := rfl

theorem scrollUp_scrollOffset (s : TermState) :
    (scrollUp s).scrollOffset = s.scrollOffset := rfl

theorem scrollUp_screenBuffer (s : TermState) :
    (scrollUp s).screenBuffer
      = clearRow s.screenBuffer (Int.emod s.totalLines TERMINAL_BUFFER_ROWS) := rfl

/-! ## C10: control codepoints other than CR, LF, BS are discarded -/

/-- C10: for every control codepoint `cp < 0x20` other than carriage return
(0x0D), line feed (0x0A) and backspace (0x08), `putChar` leaves the whole
terminal state — screen buffer, cursor, `totalLines`, `scrollOffset` —
unchanged: such input is silently discarded. -/
theorem putChar_control_discarded (s : TermState) (cp : Nat)
    (hlt : cp < 32) (hcr : cp ≠ 13) (hlf : cp ≠ 10) (hbs : cp ≠ 8) :
    putChar s cp = s := by
  unfold putChar
  rw [if_neg hcr, if_neg hlf, if_neg hbs, if_neg (by omega)]

/-- Witness for C10: the bell character 0x07 is a no-op on the fresh state. -/
theorem putChar_control_discarded_witness :
    putChar terminalInitState 7 = terminalInitState :=
  putChar_control_discarded terminalInitState 7 (by decide) (by decide) (by decide)
    (by decide)

/-! ## C4: scrollUp blank-fills exactly the reused slot -/

/-- C4: once `totalLines` has reached `TERMINAL_BUFFER_ROWS`, a `scrollUp`
blank-fills exactly the physical slot `totalLines % TERMINAL_BUFFER_ROWS`
that is about to be reused, moves the cursor row there, increments
`totalLines` by one, and leaves every other physical row (and the cursor
column and scroll offset) untouched — no bulk shifting. -/
theorem scrollUp_lazy_eviction (s : TermState)
    (hfull : TERMINAL_BUFFER_ROWS ≤ s.totalLines) :
    (scrollUp s).cursorY = Int.emod s.totalLines TERMINAL_BUFFER_ROWS ∧
    (scrollUp s).totalLines = s.totalLines + 1 ∧
    (∀ c : Int, 0 ≤ c → c < TERMINAL_COLS →
      (scrollUp s).screenBuffer (Int.emod s.totalLines TERMINAL_BUFFER_ROWS) c = 32) ∧
    (∀ r c : Int, r ≠ Int.emod s.totalLines TERMINAL_BUFFER_ROWS →
      (scrollUp s).screenBuffer r c = s.screenBuffer r c) ∧
    (scrollUp s).cursorX = s.cursorX ∧
    (scrollUp s).scrollOffset = s.scrollOffset := by
  refine ⟨rfl, rfl, ?_, ?_, rfl, rfl⟩
  · intro c hc0 hc1
    show clearRow s.screenBuffer _ _ _ = 32
    unfold clearRow
    rw [if_pos ⟨rfl, hc0, hc1⟩]
  · intro r c hr
    show clearRow s.screenBuffer _ _ _ = s.screenBuffer r c
    unfold clearRow
    rw [if_neg (by tauto)]

/-- Witness for C4: a full buffer with `totalLines = 100` and all cells set
to 77 gets exactly slot 0 cleared. -/
theorem scrollUp_lazy_eviction_witness :
    (scrollUp { terminalInitState with screenBuffer := fun _ _ => 77, totalLines := 100 }).cursorY = 0 ∧
    (scrollUp { terminalInitState with screenBuffer := fun _ _ => 77, totalLines := 100 }).totalLines = 101 ∧
    (scrollUp { terminalInitState with screenBuffer := fun _ _ => 77, totalLines := 100 }).screenBuffer 0 5 = 32 ∧
    (scrollUp { terminalInitState with screenBuffer := fun _ _ => 77, totalLines := 100 }).screenBuffer 3 5 = 77 := by
  have h := scrollUp_lazy_eviction
    { terminalInitState with screenBuffer := fun _ _ => 77, totalLines := 100 } (by decide)
  refine ⟨?_, ?_, ?_, ?_⟩
  · rw [h.1]; decide
  · rw [h.2.1]; decide
  · have := h.2.2.1 5 (by decide) (by decide)
    simpa using this
  · have := h.2.2.2.1 3 5 (by decide)
    simpa using this

/-! ## C6: malformed UTF-8 bytes reset the decoder and are dropped -/

/-- C6: on an invalid leading byte (decoder idle) or a continuation byte that
does not match `10xxxxxx` (decoder mid-sequence), `utf8Decode` resets the
decoder to its initial state and emits no scalar value; at the stream level
the offending byte is consumed and decoding of the remaining bytes proceeds
exactly as from a fresh decoder, so the byte is never reprocessed as a new
leading byte; and `terminalUpdate`'s byte handler likewise only resets the
decoder on such a byte. -/
theorem utf8_invalid_byte_dropped (d : UTF8Decoder) (b : Nat)
    (hbad :
      (d.bytesNeeded = 0 ∧ b &&& 0x80 ≠ 0 ∧ b &&& 0xE0 ≠ 0xC0 ∧
        b &&& 0xF0 ≠ 0xE0 ∧ b &&& 0xF8 ≠ 0xF0) ∨
      (d.bytesNeeded ≠ 0 ∧ b &&& 0xC0 ≠ 0x80)) :
    utf8Decode d b = (utf8Init, false) ∧
    (∀ rest : List Nat, decodeStream d (b :: rest) = decodeStream utf8Init rest) ∧
    (∀ st : IntrState, st.inEsc = false → b ≠ 27 → st.dec = d →
      feedByte st b = { st with dec := utf8Init }) := by
  have hdec : utf8Decode d b = (utf8Init, false) := by
    rcases hbad with ⟨h0, h1, h2, h3, h4⟩ | ⟨h0, h1⟩
    · unfold utf8Decode
      rw [if_pos h0, if_neg h1, if_neg h2, if_neg h3, if_neg h4]
    · unfold utf8Decode
      rw [if_neg h0, if_neg h1]
  refine ⟨hdec, ?_, ?_⟩
  · intro rest
    simp only [decodeStream]
    rw [hdec]
    rfl
  · intro st hesc hb hd
    unfold feedByte
    rw [if_neg (by simp [hesc]), if_neg hb, hd, hdec]
    rfl

/-- Witness for C6: byte 0xFF is an invalid leading byte; fed before the
valid byte 0x41 it is dropped and decoding restarts cleanly. -/
theorem utf8_invalid_byte_dropped_witness :
    utf8Decode utf8Init 255 = (utf8Init, false) ∧
    decodeStream utf8Init (255 :: [65]) = decodeStream utf8Init [65] ∧
    feedByte intrInitState 255 = { intrInitState with dec := utf8Init } := by
  have h := utf8_invalid_byte_dropped utf8Init 255 (Or.inl (by decide))
  exact ⟨h.1, h.2.1 [65], h.2.2 intrInitState rfl (by decide) rfl⟩

/-! ## C5: history navigation -/

/-- C5: from an empty history and edit buffer, pushing `"ls"`, `"pwd"`,
`"ls -la"` and then navigating Up, Up, Up, Down leaves the edit buffer equal
to `"pwd"`; the first Up press snapshots the in-progress edit into
`savedNewCommand` and enters browsing at index 0; and a Down that moves past
the newest history entry restores the saved edit and returns to the editing
state (`currentHistoryIndex = -1`). -/
theorem history_nav_up_up_up_down
    (h : HistState) (hcnt : 0 < h.historyCount) (hedit : h.currentHistoryIndex = -1)
    (h' : HistState) (hidx : h'.currentHistoryIndex = 0)
    (hlen : h'.savedNewCommand.data.length ≤ 255) :
    (historyDown (historyUp (historyUp (historyUp
      (saveCommandToHistory (saveCommandToHistory
        (saveCommandToHistory histInitState "ls") "pwd") "ls -la"))))).inputBuffer
      = "pwd" ∧
    ((historyUp h).savedNewCommand = h.inputBuffer ∧
      (historyUp h).currentHistoryIndex = 0) ∧
    ((historyDown h').inputBuffer = h'.savedNewCommand ∧
      (historyDown h').currentHistoryIndex = -1) := by
  refine ⟨by decide, ?_, ?_⟩
  · have hne : ¬ h.historyCount = 0 := by omega
    unfold historyUp
    rw [if_neg hne, if_pos hedit]
    exact ⟨rfl, rfl⟩
  · have hne : ¬ h'.currentHistoryIndex = -1 := by omega
    unfold historyDown
    rw [if_neg hne]
    have h0 : h'.currentHistoryIndex - 1 = -1 := by omega
    rw [h0]
    simp only [if_pos rfl]
    unfold loadCommandToBuffer
    refine ⟨?_, rfl⟩
    show String.mk (h'.savedNewCommand.data.take 255) = h'.savedNewCommand
    rw [List.take_of_length_le hlen]

/-- Witness for C5: the snapshot and restore behaviour at concrete states. -/
theorem history_nav_up_up_up_down_witness :
    (historyDown (historyUp (historyUp (historyUp
      (saveCommandToHistory (saveCommandToHistory
        (saveCommandToHistory histInitState "ls") "pwd") "ls -la"))))).inputBuffer
      = "pwd" ∧
    (historyUp { histInitState with historyCount := 1, inputBuffer := "draft" }).savedNewCommand
      = "draft" ∧
    (historyDown { histInitState with currentHistoryIndex := 0, savedNewCommand := "draft" }).inputBuffer
      = "draft" := by
  have h := history_nav_up_up_up_down
    { histInitState with historyCount := 1, inputBuffer := "draft" } (by decide) (by decide)
    { histInitState with currentHistoryIndex := 0, savedNewCommand := "draft" } (by decide)
    (by decide)
  exact ⟨h.1, h.2.1.1, h.2.2.1⟩

/-! ## C7 and C8: CSI parameter handling -/

/-- Counterexample for C7: feeding `ESC [ ; 5 H` to the interpreter moves the
cursor to row 4, column 0 — the `5` is consumed as the first (row) parameter
because the empty slot before `';'` is skipped — and not to column 4 as the
claim (`the 5 is still the column parameter`) requires. -/
theorem escEmptyParam_shifts_position :
    (feedBytes intrInitState [27, 91, 59, 53, 72]).term.cursorY = 4 ∧
    (feedBytes intrInitState [27, 91, 59, 53, 72]).term.cursorX = 0 ∧
    (feedBytes intrInitState [27, 91, 59, 53, 72]).term.cursorX ≠ 4 := by
  refine ⟨by decide, by decide, by decide⟩

/-- C7 amended: a wholly missing parameter takes the per-command default
(count 1 for `A`/`B`/`C`/`D`; the 1-based default 1, i.e. row/column 0, for
`H`), but an empty parameter slot terminated by `';'` is skipped rather than
holding its position: in `ESC [ ; 5 H` the `5` is parsed as the first (row)
parameter, so the cursor moves to row 4, column 0. -/
theorem escMissingParam_defaults (s : TermState) :
    ((processEscSequence s [91, 65]).cursorY
        = if s.cursorY - 1 < 0 then 0 else s.cursorY - 1) ∧
    ((processEscSequence s [91, 66]).cursorY
        = if s.cursorY + 1 ≥ TERMINAL_ROWS then TERMINAL_ROWS - 1 else s.cursorY + 1) ∧
    ((processEscSequence s [91, 67]).cursorX
        = if s.cursorX + 1 ≥ TERMINAL_COLS then TERMINAL_COLS - 1 else s.cursorX + 1) ∧
    ((processEscSequence s [91, 68]).cursorX
        = if s.cursorX - 1 < 0 then 0 else s.cursorX - 1) ∧
    ((processEscSequence s [91, 72]).cursorY = 0 ∧
      (processEscSequence s [91, 72]).cursorX = 0) ∧
    ((processEscSequence s [91, 59, 53, 72]).cursorY = 4 ∧
      (processEscSequence s [91, 59, 53, 72]).cursorX = 0) := by
  refine ⟨?_, ?_, ?_, ?_, ⟨?_, ?_⟩, ⟨?_, ?_⟩⟩ <;>
    simp [processEscSequence, applyEscCmd, parseParams, paramStep, getParam, constrain,
      TERMINAL_ROWS, TERMINAL_COLS]

/-- Helper: `constrain x lo hi` lands in `[lo, bound)` whenever
`lo ≤ hi < bound`. -/
theorem constrain_bounds' (x lo hi bound : Int) (h : lo ≤ hi) (hb : hi < bound) :
    lo ≤ constrain x lo hi ∧ constrain x lo hi < bound := by
  unfold constrain; split_ifs <;> omega

/-- C8: feeding `ESC [ 1 0 ; 5 H` to the interpreter (in ground state) puts
the cursor at 0-based row 9, column 4; and every `H`/`f` sequence leaves the
cursor row in `[0, TERMINAL_ROWS)` and column in `[0, TERMINAL_COLS)`. -/
theorem escCursorPosition_clamped :
    (∀ st : IntrState, st.inEsc = false →
      (feedBytes st [27, 91, 49, 48, 59, 53, 72]).term.cursorY = 9 ∧
      (feedBytes st [27, 91, 49, 48, 59, 53, 72]).term.cursorX = 4) ∧
    (∀ (s : TermState) (bs : List Nat), 2 ≤ bs.length → bs.headD 0 = 91 →
      (bs.getLast?.getD 0 = 72 ∨ bs.getLast?.getD 0 = 102) →
      0 ≤ (processEscSequence s bs).cursorY ∧
      (processEscSequence s bs).cursorY < TERMINAL_ROWS ∧
      0 ≤ (processEscSequence s bs).cursorX ∧
      (processEscSequence s bs).cursorX < TERMINAL_COLS) := by
  constructor
  · intro st h
    constructor <;>
      simp [feedBytes, feedByte, h, processEscSequence, applyEscCmd, parseParams,
        paramStep, getParam, constrain, TERMINAL_ROWS, TERMINAL_COLS]
  · intro s bs h1 h2 h3
    unfold processEscSequence
    rw [if_pos ⟨h1, h2⟩]
    unfold applyEscCmd
    rw [if_pos h3]
    dsimp only
    exact ⟨(constrain_bounds' _ 0 _ TERMINAL_ROWS (by decide) (by decide)).1,
      (constrain_bounds' _ 0 _ TERMINAL_ROWS (by decide) (by decide)).2,
      (constrain_bounds' _ 0 _ TERMINAL_COLS (by decide) (by decide)).1,
      (constrain_bounds' _ 0 _ TERMINAL_COLS (by decide) (by decide)).2⟩

/-- Witness for C8: the concrete sequence from the interpreter's initial
state, and the clamping at an out-of-range `ESC [ 9 9 ; 9 9 H`. -/
theorem escCursorPosition_clamped_witness :
    (feedBytes intrInitState [27, 91, 49, 48, 59, 53, 72]).term.cursorY = 9 ∧
    (feedBytes intrInitState [27, 91, 49, 48, 59, 53, 72]).term.cursorX = 4 ∧
    0 ≤ (processEscSequence terminalInitState [91, 57, 57, 59, 57, 57, 72]).cursorY ∧
    (processEscSequence terminalInitState [91, 57, 57, 59, 57, 57, 72]).cursorY < TERMINAL_ROWS := by
  have h1 := escCursorPosition_clamped.1 intrInitState rfl
  have h2 := escCursorPosition_clamped.2 terminalInitState [91, 57, 57, 59, 57, 57, 72]
    (by decide) (by decide) (by decide)
  exact ⟨h1.1, h1.2, h2.1, h2.2.1⟩

/-! ## C2: scroll clamping -/

theorem visibleRowsOf_false : visibleRowsOf false = 27 := by decide

theorem visibleRowsOf_true : visibleRowsOf true = 5 := by decide

theorem terminalScroll_keyboardVisible (s : TermState) (d : Int) :
    (terminalScroll s d).keyboardVisible = s.keyboardVisible := rfl

theorem terminalScroll_totalLines (s : TermState) (d : Int) :
    (terminalScroll s d).totalLines = s.totalLines := rfl

set_option maxRecDepth 2000 in
/-- Counterexample for C2: the state reached from a fresh terminal by five
line feeds followed by opening the on-screen keyboard is reachable, yet
`terminalScroll(+1000000)` followed by the redraw's visible-range computation
yields `first = 1`, not `0`: the clamp in `terminalScroll` uses
`TERMINAL_ROWS` (27) while the keyboard-reduced viewport shows 5 rows. -/
theorem terminalScroll_million_cex :
    computeVisibleFirst
        (terminalScroll (toggleKeyboard (putChars terminalInitState [10, 10, 10, 10, 10]))
          1000000) = 1 ∧
    (terminalScroll (toggleKeyboard (putChars terminalInitState [10, 10, 10, 10, 10]))
          1000000).keyboardVisible = true ∧
    (1 : Int) ≠ 0 := by
  exact ⟨by decide, by decide, by decide⟩

/-- C2 amended: every `terminalScroll(delta)` leaves `scrollOffset` in
`[0, max 0 (totalLines − TERMINAL_ROWS)]` (the clamp always uses
`TERMINAL_ROWS = 27`, regardless of the keyboard overlay); when the keyboard
is hidden (viewport height 27) and the scrolled-back backlog
`totalLines − 27 − scrollOffset` does not exceed 1000000,
`terminalScroll(+1000000)` followed by the visible-range computation yields
`first = 0`; and `terminalScroll(-1000000)` returns `scrollOffset` to 0
whenever `scrollOffset ≤ 1000000`. -/
theorem terminalScroll_clamped :
    (∀ (s : TermState) (delta : Int),
      0 ≤ (terminalScroll s delta).scrollOffset ∧
      (terminalScroll s delta).scrollOffset ≤ max 0 (s.totalLines - TERMINAL_ROWS)) ∧
    (∀ s : TermState, s.keyboardVisible = false → 0 ≤ s.scrollOffset →
      s.totalLines - TERMINAL_ROWS - s.scrollOffset ≤ 1000000 →
      computeVisibleFirst (terminalScroll s 1000000) = 0) ∧
    (∀ s : TermState, 0 ≤ s.scrollOffset → s.scrollOffset ≤ 1000000 →
      (terminalScroll s (-1000000)).scrollOffset = 0) := by
  refine ⟨?_, ?_, ?_⟩
  · intro s delta
    unfold terminalScroll
    dsimp only
    split_ifs <;> omega
  · intro s hkb hso hbound
    unfold computeVisibleFirst
    rw [terminalScroll_keyboardVisible, hkb, visibleRowsOf_false]
    unfold firstLineToShow terminalScroll
    dsimp only
    unfold TERMINAL_ROWS at *
    split_ifs <;> omega
  · intro s h0 h1
    unfold terminalScroll
    dsimp only
    split_ifs <;> omega

/-- Witness for C2 (amended): concrete instances of all three clamping
facts. -/
theorem terminalScroll_clamped_witness :
    (0 ≤ (terminalScroll { terminalInitState with totalLines := 50 } 7).scrollOffset ∧
      (terminalScroll { terminalInitState with totalLines := 50 } 7).scrollOffset
        ≤ max 0 ((50 : Int) - TERMINAL_ROWS)) ∧
    computeVisibleFirst
      (terminalScroll { terminalInitState with totalLines := 50 } 1000000) = 0 ∧
    (terminalScroll { terminalInitState with totalLines := 50, scrollOffset := 23 }
        (-1000000)).scrollOffset = 0 := by
  have h1 := terminalScroll_clamped.1 { terminalInitState with totalLines := 50 } 7
  have h2 := terminalScroll_clamped.2.1 { terminalInitState with totalLines := 50 }
    rfl (by decide) (by decide)
  have h3 := terminalScroll_clamped.2.2
    { terminalInitState with totalLines := 50, scrollOffset := 23 } (by decide) (by decide)
  exact ⟨⟨h1.1, h1.2⟩, h2, h3⟩

/-! ## C9: cursor stays inside the buffer -/

theorem lineFeed_inv (s : TermState)
    (hy0 : 0 ≤ s.cursorY) (hy1 : s.cursorY < TERMINAL_BUFFER_ROWS)
    (ht : 0 ≤ s.totalLines) :
    (lineFeed s).cursorX = s.cursorX ∧ 0 ≤ (lineFeed s).cursorY ∧
    (lineFeed s).cursorY < TERMINAL_BUFFER_ROWS ∧ 0 ≤ (lineFeed s).totalLines := by
  unfold lineFeed
  dsimp only
  split_ifs with c1 c2 c3 c4 c5 c6
  all_goals try dsimp only at *
  all_goals refine ⟨?_, ?_, ?_, ?_⟩
  all_goals simp only [ensureCursorVisible_cursorX, ensureCursorVisible_cursorY,
    ensureCursorVisible_totalLines, scrollUp_cursorX, scrollUp_cursorY, scrollUp_totalLines]
  all_goals
    first
      | rfl
      | exact Int.emod_nonneg _ (by decide)
      | exact Int.emod_lt_of_pos _ (by decide)
      | (unfold TERMINAL_BUFFER_ROWS at *; omega)

theorem clampLow_bounds (y p bound : Int) (hy0 : 0 ≤ y) (hy1 : y < bound) (hp : 0 ≤ p) :
    0 ≤ (if y - p < 0 then 0 else y - p) ∧ (if y - p < 0 then 0 else y - p) < bound := by
  split_ifs <;> omega

theorem clampHigh_bounds (y p lim bound : Int) (hy0 : 0 ≤ y) (hp : 0 ≤ p)
    (h1 : 0 < lim) (h2 : lim ≤ bound) :
    0 ≤ (if y + p ≥ lim then lim - 1 else y + p) ∧
      (if y + p ≥ lim then lim - 1 else y + p) < bound := by
  split_ifs <;> omega

theorem terminalClear_inv (s : TermState) : TermInv (terminalClear s) :=
  ⟨le_refl 0, show (0 : Int) < TERMINAL_COLS by decide, le_refl 0,
    show (0 : Int) < TERMINAL_BUFFER_ROWS by decide, le_refl 0⟩

theorem putChar_inv (s : TermState) (cp : Nat) (h : TermInv s) : TermInv (putChar s cp) := by
  obtain ⟨hx0, hx1, hy0, hy1, ht⟩ := h
  unfold putChar
  split_ifs with h13 h10 h8 hxpos h32
  · exact ⟨le_refl 0, show (0 : Int) < TERMINAL_COLS by decide, hy0, hy1, ht⟩
  · have hlf := lineFeed_inv { s with cursorX := 0 } hy0 hy1 ht
    refine ⟨?_, ?_, hlf.2.1, hlf.2.2.1, hlf.2.2.2⟩
    · rw [hlf.1]
    · rw [hlf.1]; exact show (0 : Int) < TERMINAL_COLS by decide
  · exact ⟨show (0 : Int) ≤ s.cursorX - 1 by omega,
      show s.cursorX - 1 < TERMINAL_COLS by omega, hy0, hy1, ht⟩
  · exact ⟨hx0, hx1, hy0, hy1, ht⟩
  · dsimp only
    split_ifs with hwrap
    · have hlf := lineFeed_inv
        { s with screenBuffer := writeCell s.screenBuffer s.cursorY s.cursorX cp,
                 cursorX := 0 } hy0 hy1 ht
      refine ⟨?_, ?_, hlf.2.1, hlf.2.2.1, hlf.2.2.2⟩
      · rw [hlf.1]
      · rw [hlf.1]; exact show (0 : Int) < TERMINAL_COLS by decide
    · exact ⟨show (0 : Int) ≤ s.cursorX + 1 by omega,
        show s.cursorX + 1 < TERMINAL_COLS by omega, hy0, hy1, ht⟩
  · exact ⟨hx0, hx1, hy0, hy1, ht⟩

theorem applyEscCmd_inv (s : TermState) (cmd : Nat) (ps : List Nat) (h : TermInv s) :
    TermInv (applyEscCmd s cmd ps) := by
  obtain ⟨hx0, hx1, hy0, hy1, ht⟩ := h
  have hp : (0 : Int) ≤ (if getParam ps 0 = 0 then (1 : Int) else (getParam ps 0 : Int)) := by
    split_ifs
    · decide
    · exact Int.natCast_nonneg _
  unfold applyEscCmd
  by_cases hHf : cmd = 72 ∨ cmd = 102
  · rw [if_pos hHf]
    exact ⟨(constrain_bounds' _ 0 (TERMINAL_COLS - 1) TERMINAL_COLS (by decide) (by decide)).1,
      (constrain_bounds' _ 0 (TERMINAL_COLS - 1) TERMINAL_COLS (by decide) (by decide)).2,
      (constrain_bounds' _ 0 (TERMINAL_ROWS - 1) TERMINAL_BUFFER_ROWS (by decide) (by decide)).1,
      (constrain_bounds' _ 0 (TERMINAL_ROWS - 1) TERMINAL_BUFFER_ROWS (by decide) (by decide)).2,
      ht⟩
  rw [if_neg hHf]
  by_cases hJ : cmd = 74
  · rw [if_pos hJ]
    by_cases hJ2 : getParam ps 0 = 2
    · rw [if_pos hJ2]
      exact terminalClear_inv s
    · rw [if_neg hJ2]
      exact ⟨hx0, hx1, hy0, hy1, ht⟩
  rw [if_neg hJ]
  by_cases hK : cmd = 75
  · rw [if_pos hK]
    exact ⟨hx0, hx1, hy0, hy1, ht⟩
  rw [if_neg hK]
  by_cases hm : cmd = 109
  · rw [if_pos hm]
    by_cases hm0 : ps.length = 0 ∨ getParam ps 0 = 0
    · rw [if_pos hm0]
      exact ⟨hx0, hx1, hy0, hy1, ht⟩
    · rw [if_neg hm0]
      exact ⟨hx0, hx1, hy0, hy1, ht⟩
  rw [if_neg hm]
  by_cases hA : cmd = 65
  · rw [if_pos hA]
    exact ⟨hx0, hx1, (clampLow_bounds _ _ _ hy0 hy1 hp).1, (clampLow_bounds _ _ _ hy0 hy1 hp).2, ht⟩
  rw [if_neg hA]
  by_cases hB : cmd = 66
  · rw [if_pos hB]
    exact ⟨hx0, hx1,
      (clampHigh_bounds _ _ TERMINAL_ROWS TERMINAL_BUFFER_ROWS hy0 hp (by decide) (by decide)).1,
      (clampHigh_bounds _ _ TERMINAL_ROWS TERMINAL_BUFFER_ROWS hy0 hp (by decide) (by decide)).2,
      ht⟩
  rw [if_neg hB]
  by_cases hC : cmd = 67
  · rw [if_pos hC]
    exact ⟨(clampHigh_bounds _ _ TERMINAL_COLS TERMINAL_COLS hx0 hp (by decide) (by decide)).1,
      (clampHigh_bounds _ _ TERMINAL_COLS TERMINAL_COLS hx0 hp (by decide) (by decide)).2,
      hy0, hy1, ht⟩
  rw [if_neg hC]
  by_cases hD : cmd = 68
  · rw [if_pos hD]
    exact ⟨(clampLow_bounds _ _ _ hx0 hx1 hp).1, (clampLow_bounds _ _ _ hx0 hx1 hp).2, hy0, hy1, ht⟩
  rw [if_neg hD]
  exact ⟨hx0, hx1, hy0, hy1, ht⟩

theorem processEscSequence_inv (s : TermState) (bs : List Nat) (h : TermInv s) :
    TermInv (processEscSequence s bs) := by
  unfold processEscSequence
  split_ifs with hguard
  · exact applyEscCmd_inv s _ _ h
  · exact h

theorem scrollUp_inv (s : TermState) (h : TermInv s) : TermInv (scrollUp s) := by
  obtain ⟨hx0, hx1, hy0, hy1, ht⟩ := h
  refine ⟨hx0, hx1, Int.emod_nonneg _ (by decide), Int.emod_lt_of_pos _ (by decide), ?_⟩
  rw [scrollUp_totalLines]; omega

theorem terminalScroll_inv (s : TermState) (d : Int) (h : TermInv s) :
    TermInv (terminalScroll s d) := h

theorem stepOp_inv (s : TermState) (op : TermOp) (h : TermInv s) : TermInv (stepOp s op) := by
  cases op with
  | put cp => exact putChar_inv s cp h
  | esc bs => exact processEscSequence_inv s bs h
  | scrUp => exact scrollUp_inv s h
  | scroll d => exact terminalScroll_inv s d h
  | clear => exact terminalClear_inv s

/-- C9: after `terminalInit`, every sequence of operations — `putChar` with
any codepoint, `processEscSequence` with any collected sequence, `scrollUp`,
`terminalScroll` with any delta, `terminalClear` — keeps
`0 ≤ cursorX < TERMINAL_COLS` and `0 ≤ cursorY < TERMINAL_BUFFER_ROWS`
(together with `0 ≤ totalLines`), so every `screenBuffer[cursorY][cursorX]`
write lands inside the 100 × 53 buffer. -/
theorem cursor_in_bounds_inv :
    TermInv terminalInitState ∧
    ∀ (ops : List TermOp) (s : TermState), TermInv s → TermInv (runOps s ops) := by
  constructor
  · exact ⟨le_refl 0, by decide, le_refl 0, by decide, le_refl 0⟩
  · intro ops
    induction ops with
    | nil => exact fun s h => h
    | cons op rest ih =>
      intro s h
      exact ih (stepOp s op) (stepOp_inv s op h)

/-- Witness for C9: the invariant holds after a concrete mixed run from the
initial state. -/
theorem cursor_in_bounds_inv_witness :
    TermInv (runOps terminalInitState
      [TermOp.put 65, TermOp.put 10, TermOp.esc [91, 72], TermOp.scrUp,
        TermOp.scroll 3, TermOp.put 1090, TermOp.clear]) :=
  cursor_in_bounds_inv.2
    [TermOp.put 65, TermOp.put 10, TermOp.esc [91, 72], TermOp.scrUp,
      TermOp.scroll 3, TermOp.put 1090, TermOp.clear]
    terminalInitState cursor_in_bounds_inv.1

/-! ## C3: printable characters advance the column; column wrap -/

theorem putChar_printable (s : TermState) (cp : Nat) (h32 : 32 ≤ cp)
    (hnw : s.cursorX + 1 < TERMINAL_COLS) :
    putChar s cp =
      { s with screenBuffer := writeCell s.screenBuffer s.cursorY s.cursorX cp,
               cursorX := s.cursorX + 1 } := by
  unfold putChar
  rw [if_neg (by omega), if_neg (by omega), if_neg (by omega), if_pos h32]
  dsimp only
  rw [if_neg (show ¬ s.cursorX + 1 ≥ TERMINAL_COLS by omega)]

theorem putChar_printable_wrap (s : TermState) (cp : Nat) (h32 : 32 ≤ cp)
    (hx : s.cursorX + 1 ≥ TERMINAL_COLS) :
    putChar s cp =
      lineFeed { s with screenBuffer := writeCell s.screenBuffer s.cursorY s.cursorX cp,
                        cursorX := 0 } := by
  unfold putChar
  rw [if_neg (by omega), if_neg (by omega), if_neg (by omega), if_pos h32]
  dsimp only
  rw [if_pos hx]

theorem putChars_no_wrap (cps : List Nat) : ∀ s : TermState, (∀ cp ∈ cps, 32 ≤ cp) →
    s.cursorX + (cps.length : Int) ≤ TERMINAL_COLS - 1 →
    (putChars s cps).cursorX = s.cursorX + (cps.length : Int) ∧
    (putChars s cps).cursorY = s.cursorY ∧
    (putChars s cps).totalLines = s.totalLines ∧
    (putChars s cps).scrollOffset = s.scrollOffset := by
  induction cps with
  | nil => intro s _ _; exact ⟨by simp [putChars], rfl, rfl, rfl⟩
  | cons c cs ih =>
    intro s hall hbound
    have hlen : ((c :: cs).length : Int) = (cs.length : Int) + 1 := by
      simp
    rw [hlen] at hbound
    have hc : 32 ≤ c := hall c (List.mem_cons_self c cs)
    have hstep := putChar_printable s c hc (by omega)
    have hrw : putChars s (c :: cs) = putChars (putChar s c) cs := rfl
    rw [hrw, hstep]
    have hrest := ih { s with screenBuffer := writeCell s.screenBuffer s.cursorY s.cursorX c,
                              cursorX := s.cursorX + 1 }
      (fun cp hm => hall cp (List.mem_cons_of_mem c hm)) (by dsimp only; omega)
    refine ⟨?_, hrest.2.1, hrest.2.2.1, hrest.2.2.2⟩
    rw [hrest.1, hlen]
    dsimp only
    omega

theorem lineFeed_next_line (s : TermState) (hy0 : 0 ≤ s.cursorY)
    (hcons : s.cursorY = s.totalLines - 1) (hle : s.totalLines ≤ TERMINAL_BUFFER_ROWS) :
    (lineFeed s).cursorX = s.cursorX ∧
    (lineFeed s).totalLines = s.totalLines + 1 ∧
    cursorAbsLine (lineFeed s) = s.cursorY + 1 := by
  unfold lineFeed
  dsimp only
  by_cases htop : s.totalLines = TERMINAL_BUFFER_ROWS
  · have hy99 : s.cursorY = TERMINAL_BUFFER_ROWS - 1 := by omega
    rw [if_neg (show ¬ s.cursorY + 1 < TERMINAL_BUFFER_ROWS by omega)]
    dsimp only
    rw [if_neg (show ¬ (s.totalLines < TERMINAL_BUFFER_ROWS ∧ s.totalLines ≤ s.cursorY + 1) by
      omega)]
    dsimp only
    rw [if_pos (show s.cursorY + 1 ≥ TERMINAL_BUFFER_ROWS by omega)]
    refine ⟨by rw [ensureCursorVisible_cursorX, scrollUp_cursorX], ?_, ?_⟩
    · rw [ensureCursorVisible_totalLines, scrollUp_totalLines]
    · unfold cursorAbsLine
      rw [ensureCursorVisible_totalLines, scrollUp_totalLines,
        ensureCursorVisible_cursorY, scrollUp_cursorY]
      dsimp only
      rw [if_neg (show ¬ s.totalLines + 1 ≤ TERMINAL_BUFFER_ROWS by omega)]
      rw [hy99, htop]
      unfold TERMINAL_BUFFER_ROWS
      decide
  · rw [if_pos (show s.cursorY + 1 < TERMINAL_BUFFER_ROWS by omega)]
    dsimp only
    rw [if_pos (show s.totalLines < TERMINAL_BUFFER_ROWS ∧ s.totalLines ≤ s.cursorY + 1 by
      omega)]
    dsimp only
    rw [if_neg (show ¬ s.cursorY + 1 ≥ TERMINAL_BUFFER_ROWS by omega)]
    refine ⟨by rw [ensureCursorVisible_cursorX], ?_, ?_⟩
    · rw [ensureCursorVisible_totalLines]
      dsimp only
      omega
    · unfold cursorAbsLine
      rw [ensureCursorVisible_totalLines, ensureCursorVisible_cursorY]
      dsimp only
      rw [if_pos (show s.cursorY + 1 + 1 ≤ TERMINAL_BUFFER_ROWS by omega)]

/-- C3: starting at column 0, feeding `N` printable codepoints (each ≥ 0x20)
through `putChar` leaves the cursor at column `N` on the same line with no
new line opened when `N < TERMINAL_COLS`; feeding exactly `TERMINAL_COLS`
printable codepoints triggers exactly one implicit newline — `totalLines`
grows by one — leaving the cursor at column 0 on the next absolute line
(stated for a consistent linear-regime state, where the cursor sits on the
newest line and the buffer has not yet wrapped). -/
theorem printable_column_advance :
    (∀ (s : TermState) (cps : List Nat), s.cursorX = 0 → (∀ cp ∈ cps, 32 ≤ cp) →
      ((cps.length : Int) < TERMINAL_COLS →
        (putChars s cps).cursorX = (cps.length : Int) ∧
        (putChars s cps).cursorY = s.cursorY ∧
        (putChars s cps).totalLines = s.totalLines ∧
        (putChars s cps).scrollOffset = s.scrollOffset)) ∧
    (∀ (s : TermState) (cps : List Nat), s.cursorX = 0 → (∀ cp ∈ cps, 32 ≤ cp) →
      (cps.length : Int) = TERMINAL_COLS → 0 ≤ s.cursorY →
      s.cursorY = s.totalLines - 1 → s.totalLines ≤ TERMINAL_BUFFER_ROWS →
      (putChars s cps).cursorX = 0 ∧
      (putChars s cps).totalLines = s.totalLines + 1 ∧
      cursorAbsLine (putChars s cps) = cursorAbsLine s + 1) := by
  constructor
  · intro s cps hx hall hlen
    have h := putChars_no_wrap cps s hall (by omega)
    rw [hx] at h
    exact ⟨by rw [h.1]; omega, h.2.1, h.2.2.1, h.2.2.2⟩
  · intro s cps hx hall hlen hy0 hcons hle
    have hne : cps ≠ [] := by
      intro hnil
      rw [hnil] at hlen
      simp [TERMINAL_COLS] at hlen
    have hsplit : cps.dropLast ++ [cps.getLast hne] = cps :=
      List.dropLast_append_getLast hne
    have hfold : putChars s cps = putChar (putChars s cps.dropLast) (cps.getLast hne) := by
      conv_lhs => rw [← hsplit]
      rw [putChars, List.foldl_append]
      rfl
    have hdll : ((cps.dropLast.length : Nat) : Int) = TERMINAL_COLS - 1 := by
      rw [List.length_dropLast]
      unfold TERMINAL_COLS at hlen ⊢
      omega
    have ht := putChars_no_wrap cps.dropLast s
      (fun cp hm => hall cp (List.dropLast_subset cps hm)) (by rw [hdll]; omega)
    rw [hdll, hx] at ht
    have hlast : 32 ≤ cps.getLast hne := hall _ (List.getLast_mem hne)
    have hwrap := putChar_printable_wrap (putChars s cps.dropLast) (cps.getLast hne)
      hlast (by rw [ht.1]; omega)
    rw [hfold, hwrap]
    have hlf := lineFeed_next_line
      { putChars s cps.dropLast with
        screenBuffer := writeCell (putChars s cps.dropLast).screenBuffer
          (putChars s cps.dropLast).cursorY (putChars s cps.dropLast).cursorX
          (cps.getLast hne),
        cursorX := 0 }
      (by dsimp only; rw [ht.2.1]; exact hy0)
      (by dsimp only; rw [ht.2.1, ht.2.2.1]; exact hcons)
      (by dsimp only; rw [ht.2.2.1]; exact hle)
    refine ⟨?_, ?_, ?_⟩
    · rw [hlf.1]
    · rw [hlf.2.1]
      dsimp only
      rw [ht.2.2.1]
    · rw [hlf.2.2]
      dsimp only
      rw [ht.2.1]
      unfold cursorAbsLine
      rw [if_pos hle, hcons]

/-- Witness for C3: after one line feed from the initial state, two printable
characters put the cursor at column 2; exactly 53 printable characters wrap
to column 0 and open exactly one new line. -/
theorem printable_column_advance_witness :
    (putChars (putChar terminalInitState 10) [72, 105]).cursorX = 2 ∧
    (putChars (putChar terminalInitState 10) (List.replicate 53 65)).cursorX = 0 ∧
    (putChars (putChar terminalInitState 10) (List.replicate 53 65)).totalLines = 3 := by
  have h1 := (printable_column_advance.1 (putChar terminalInitState 10) [72, 105]
    (by decide) (by decide)) (by decide)
  have h2 := printable_column_advance.2 (putChar terminalInitState 10)
    (List.replicate 53 65) (by decide) (by decide) (by decide) (by decide) (by decide)
    (by decide)
  refine ⟨?_, h2.1, ?_⟩
  · rw [h1.1]; decide
  · rw [h2.2.1]; decide

/-! ## C1: the 105-line write session -/

/-- Distinct content marker written at column 0 of the `i`-th appended line. -/
def lineCp (i : Nat) : Nat := 100 + i

/-- Append one line: write its content character, then send a line feed. -/
def appendLine (s : TermState) (cp : Nat) : TermState := putChar (putChar s cp) 10

/-- The session that appends lines `0, 1, 2, …` with contents
`lineCp 0, lineCp 1, …` to a fresh terminal. -/
def sessionAppend : Nat → TermState
  | 0 => terminalInitState
  | n + 1 => appendLine (sessionAppend n) (lineCp n)

/-- Buffer contents after `n ≤ 99` appended lines: rows `0 … n−1` hold their
line markers at column 0, everything else is blank. -/
def bufPhase1 (n : Nat) : Int → Int → Nat := fun r c =>
  if 0 ≤ r ∧ r < (n : Int) ∧ c = 0 then lineCp r.toNat else 32

/-- Terminal state after `1 ≤ n ≤ 99` appended lines. -/
def statePhase1 (n : Nat) : TermState :=
  { screenBuffer := bufPhase1 n
    cursorX := 0
    cursorY := (n : Int)
    scrollOffset := 0
    totalLines := (n : Int) + 1
    fgColor := TFT_GREEN
    bgColor := TFT_BLACK
    keyboardVisible := false }

/-- Buffer contents after `100 + j` appended lines (`j ≤ 5`): rows `0 … j−1`
hold the markers of lines `100 … 100+j−1`, row `j` is blank (just cleared),
rows `j+1 … 99` still hold the markers of lines `j+1 … 99`. -/
def bufPhase2 (j : Nat) : Int → Int → Nat := fun r c =>
  if 0 ≤ r ∧ r < (j : Int) ∧ c = 0 then lineCp (100 + r.toNat)
  else if (j : Int) < r ∧ r ≤ 99 ∧ c = 0 then lineCp r.toNat
  else 32

/-- Terminal state after `100 + j` appended lines (`j ≤ 5`): note
`totalLines` is stuck at 101. -/
def statePhase2 (j : Nat) : TermState :=
  { screenBuffer := bufPhase2 j
    cursorX := 0
    cursorY := (j : Int)
    scrollOffset := 0
    totalLines := 101
    fgColor := TFT_GREEN
    bgColor := TFT_BLACK
    keyboardVisible := false }

theorem putChar_lf (s : TermState) : putChar s 10 = lineFeed { s with cursorX := 0 } := by
  unfold putChar
  rw [if_neg (by decide), if_pos rfl]

theorem ensureCursorVisible_kb_false (s : TermState) (h : s.keyboardVisible = false) :
    ensureCursorVisible s = { s with scrollOffset := 0 } := by
  unfold ensureCursorVisible
  rw [h]
  simp

theorem bufPhase1_step (n : Nat) :
    clearRow (writeCell (bufPhase1 n) (n : Int) 0 (lineCp n)) ((n : Int) + 1)
      = bufPhase1 (n + 1) := by
  funext r c
  unfold clearRow writeCell bufPhase1
  split_ifs with h1 h2 h3 h4 h5 <;> try omega
  rw [h3.1, Int.toNat_natCast]

theorem appendLine_phase1_step (n : Nat) (T : Int) (hn : n ≤ 98) (hT0 : 0 ≤ T)
    (hT : T ≤ (n : Int) + 1) :
    appendLine
      { screenBuffer := bufPhase1 n, cursorX := 0, cursorY := (n : Int),
        scrollOffset := 0, totalLines := T, fgColor := TFT_GREEN, bgColor := TFT_BLACK,
        keyboardVisible := false } (lineCp n) = statePhase1 (n + 1) := by
  unfold appendLine
  rw [putChar_printable
    { screenBuffer := bufPhase1 n, cursorX := 0, cursorY := (n : Int),
      scrollOffset := 0, totalLines := T, fgColor := TFT_GREEN, bgColor := TFT_BLACK,
      keyboardVisible := false } (lineCp n) (by unfold lineCp; omega)
    (by dsimp only; unfold TERMINAL_COLS; omega)]
  rw [putChar_lf]
  dsimp only
  unfold lineFeed
  dsimp only
  rw [if_pos (show (n : Int) + 1 < TERMINAL_BUFFER_ROWS by unfold TERMINAL_BUFFER_ROWS; omega)]
  dsimp only
  rw [if_pos (show T < TERMINAL_BUFFER_ROWS ∧ T ≤ (n : Int) + 1 by
    unfold TERMINAL_BUFFER_ROWS; omega)]
  dsimp only
  rw [if_neg (show ¬ (n : Int) + 1 ≥ TERMINAL_BUFFER_ROWS by unfold TERMINAL_BUFFER_ROWS; omega)]
  rw [ensureCursorVisible_kb_false _ rfl]
  unfold statePhase1
  rw [show ((n + 1 : Nat) : Int) = (n : Int) + 1 by push_cast; ring]
  rw [bufPhase1_step n]

theorem sessionAppend_phase1 : ∀ n : Nat, 1 ≤ n → n ≤ 99 → sessionAppend n = statePhase1 n := by
  intro n
  induction n with
  | zero => intro h; omega
  | succ m ih =>
    intro h1 h99
    show appendLine (sessionAppend m) (lineCp m) = statePhase1 (m + 1)
    by_cases hm : m = 0
    · subst hm
      have hbuf : bufPhase1 0 = terminalInitState.screenBuffer := by
        funext r c
        unfold bufPhase1 terminalInitState
        rw [if_neg (by omega)]
      have hinit : sessionAppend 0 =
          { screenBuffer := bufPhase1 0, cursorX := 0, cursorY := ((0 : Nat) : Int),
            scrollOffset := 0, totalLines := 0, fgColor := TFT_GREEN, bgColor := TFT_BLACK,
            keyboardVisible := false } := by
        show terminalInitState = _
        rw [hbuf]
        rfl
      rw [hinit]
      exact appendLine_phase1_step 0 0 (by omega) (by omega) (by omega)
    · rw [ih (by omega) (by omega)]
      unfold statePhase1
      exact appendLine_phase1_step m ((m : Int) + 1) (by omega) (by omega) (by omega)

theorem bufPhase2_zero :
    clearRow (writeCell (bufPhase1 99) ((99 : Nat) : Int) 0 (lineCp 99)) 0 = bufPhase2 0 := by
  funext r c
  unfold clearRow writeCell bufPhase1 bufPhase2 TERMINAL_COLS
  split_ifs <;> first | rfl | omega | (congr 1; omega)

theorem appendLine_wrap :
    appendLine (statePhase1 99) (lineCp 99) = statePhase2 0 := by
  unfold statePhase1
  unfold appendLine
  rw [putChar_printable
    { screenBuffer := bufPhase1 99, cursorX := 0, cursorY := ((99 : Nat) : Int),
      scrollOffset := 0, totalLines := ((99 : Nat) : Int) + 1, fgColor := TFT_GREEN,
      bgColor := TFT_BLACK, keyboardVisible := false } (lineCp 99)
    (by unfold lineCp; omega) (by dsimp only; unfold TERMINAL_COLS; omega)]
  rw [putChar_lf]
  dsimp only
  unfold lineFeed
  dsimp only
  rw [if_neg (show ¬ ((99 : Nat) : Int) + 1 < TERMINAL_BUFFER_ROWS by
    norm_num [TERMINAL_BUFFER_ROWS])]
  dsimp only
  rw [if_neg (show ¬ (((99 : Nat) : Int) + 1 < TERMINAL_BUFFER_ROWS ∧
      ((99 : Nat) : Int) + 1 ≤ ((99 : Nat) : Int) + 1) by
    norm_num [TERMINAL_BUFFER_ROWS])]
  dsimp only
  rw [if_pos (show ((99 : Nat) : Int) + 1 ≥ TERMINAL_BUFFER_ROWS by
    norm_num [TERMINAL_BUFFER_ROWS])]
  rw [ensureCursorVisible_kb_false _ rfl]
  unfold scrollUp
  dsimp only
  rw [show Int.emod (((99 : Nat) : Int) + 1) TERMINAL_BUFFER_ROWS = 0 from by decide]
  rw [bufPhase2_zero]
  unfold statePhase2
  rfl

theorem bufPhase2_step (j : Nat) :
    clearRow (writeCell (bufPhase2 j) ((j : Nat) : Int) 0 (lineCp (100 + j))) ((j : Int) + 1)
      = bufPhase2 (j + 1) := by
  funext r c
  unfold clearRow writeCell bufPhase2 TERMINAL_COLS
  split_ifs <;> first | rfl | omega | (congr 1; omega)

theorem appendLine_phase2_step (j : Nat) (hj : j ≤ 4) :
    appendLine (statePhase2 j) (lineCp (100 + j)) = statePhase2 (j + 1) := by
  unfold statePhase2
  unfold appendLine
  rw [putChar_printable
    { screenBuffer := bufPhase2 j, cursorX := 0, cursorY := ((j : Nat) : Int),
      scrollOffset := 0, totalLines := 101, fgColor := TFT_GREEN,
      bgColor := TFT_BLACK, keyboardVisible := false } (lineCp (100 + j))
    (by unfold lineCp; omega) (by dsimp only; unfold TERMINAL_COLS; omega)]
  rw [putChar_lf]
  dsimp only
  unfold lineFeed
  dsimp only
  rw [if_pos (show ((j : Nat) : Int) + 1 < TERMINAL_BUFFER_ROWS by
    unfold TERMINAL_BUFFER_ROWS; omega)]
  dsimp only
  rw [if_neg (show ¬ ((101 : Int) < TERMINAL_BUFFER_ROWS ∧
      (101 : Int) ≤ ((j : Nat) : Int) + 1) by unfold TERMINAL_BUFFER_ROWS; omega)]
  dsimp only
  rw [if_neg (show ¬ ((j : Nat) : Int) + 1 ≥ TERMINAL_BUFFER_ROWS by
    unfold TERMINAL_BUFFER_ROWS; omega)]
  rw [ensureCursorVisible_kb_false _ rfl]
  rw [bufPhase2_step j]
  rw [show ((j + 1 : Nat) : Int) = ((j : Nat) : Int) + 1 by push_cast; ring]

theorem sessionAppend_phase2 : ∀ j : Nat, j ≤ 5 → sessionAppend (100 + j) = statePhase2 j := by
  intro j
  induction j with
  | zero =>
    intro _
    show appendLine (sessionAppend 99) (lineCp 99) = statePhase2 0
    rw [sessionAppend_phase1 99 (by omega) (by omega)]
    exact appendLine_wrap
  | succ m ih =>
    intro hm
    show appendLine (sessionAppend (100 + m)) (lineCp (100 + m)) = statePhase2 (m + 1)
    rw [ih (by omega)]
    exact appendLine_phase2_step m (by omega)

/-- C1 (bug-exhibiting evaluation): after appending `TERMINAL_BUFFER_ROWS + 5
= 105` marker-carrying lines to a fresh terminal, `totalLines` is 101 — the
newline path stops counting lines once the circular buffer has wrapped — so
after scrolling all the way up the redraw's visible-range computation still
yields absolute line 1 (pair `(1, 1)` is drawn), whereas line 1's slot now
holds the marker of line 101 (not line 1's own marker), and line 5's slot
was blanked; the claim that the first five lines are unreachable and the
most recent lines intact therefore fails on the code. -/
theorem session105_wrap_drift :
    (sessionAppend 105).totalLines = 101 ∧
    (terminalScroll (sessionAppend 105) 1000000).scrollOffset = 74 ∧
    (1, 1) ∈ drawnLines (terminalScroll (sessionAppend 105) 1000000) ∧
    (terminalScroll (sessionAppend 105) 1000000).screenBuffer 1 0 = lineCp 101 ∧
    lineCp 101 ≠ lineCp 1 ∧
    (terminalScroll (sessionAppend 105) 1000000).screenBuffer 5 0 = 32 ∧
    (32 : Nat) ≠ lineCp 5 := by
  have h105 : sessionAppend 105 = statePhase2 5 := sessionAppend_phase2 5 (by omega)
  rw [h105]
  exact ⟨by decide, by decide, by decide, by decide, by decide, by decide, by decide⟩
